import Mathlib

/-!
Verification of the `mover` color-routing system against its specification.

The development shallow-embeds the Python source:
- `storage` mirrors `server_python/storage.py` (registry, content ledger,
  audit trail, cleanup tasks);
- `main` mirrors the HTTP handlers of `server_python/main.py` (workflow
  transitions and the streaming upload endpoint);
- `daemon` mirrors `site_daemon/daemon.py` (pre-upload existence check and
  file-stability detection).

The relational store is modelled as an explicit `DB` value threaded through
each operation; SHA-256 is abstracted as a function parameter `H` wherever a
hash of a received byte stream is computed, since the handlers only compare
digests for equality.
-/

set_option maxHeartbeats 1000000

/-- Lifecycle states of `file_state` (models.py / database.py). -/
inductive FState
  | detected
  | validated
  | queued
  | transferring
  | transferred
  | colorist_assigned
  | in_progress
  | delivered_to_mam
  | archived
  | rejected
deriving DecidableEq, Repr

/-- A row of the `files` table (the File Registry). -/
structure FileRec where
  id : Nat
  filename : String
  source_site : String
  source_path : String
  file_size : Nat
  sha256_hash : String
  state : FState
  locked : Bool
  assigned_to : Option Nat
  transfer_progress : Nat
  error_message : Option String
deriving DecidableEq, Repr

/-- A row of the permanent `file_history` ledger (the Content Ledger). -/
structure HistoryEntry where
  sha256_hash : String
  filename : String
  source_site : String
  file_size : Nat
deriving DecidableEq, Repr

/-- A row of the `audit_logs` table. -/
structure AuditLog where
  file_id : Option Nat
  action : String
  previous_state : Option FState
  new_state : Option FState
  performed_by : Option Nat
  details : Option String
deriving DecidableEq, Repr

/-- A row of the `transfer_jobs` table (only its file linkage matters here). -/
structure TransferJob where
  file_id : Nat
deriving DecidableEq, Repr

/-- A row of the `cleanup_tasks` table (Reconciliation Coordinator). -/
structure CleanupTask where
  id : Nat
  file_id : Nat
  status : String
  orchestrator_deleted : Bool
  daemon_deleted : Bool
deriving DecidableEq, Repr

/-- A row of the `sites` table (only the name is consulted by the handlers). -/
structure SiteRec where
  name : String
deriving DecidableEq, Repr

/-- A row of the `users` table (id and role drive colorist assignment). -/
structure UserRec where
  id : Nat
  role : String
deriving DecidableEq, Repr

/-- Python str.lower, as used for case-insensitive site matching, embedded
over the character list so that it evaluates on concrete inputs. -/
def strLower (s : String) : String := ⟨s.data.map Char.toLower⟩

/-- The relational store plus the upload destination directory, as one state.
`disk` records the destination artifacts present under STORAGE_PATH as
(site, filename) pairs; `next_id` models uuid generation for new files. -/
structure DB where
  files : List FileRec
  history : List HistoryEntry
  audit_logs : List AuditLog
  transfer_jobs : List TransferJob
  cleanup_tasks : List CleanupTask
  sites : List SiteRec
  users : List UserRec
  disk : List (String × String)
  next_id : Nat
deriving DecidableEq, Repr

namespace storage

/-- storage.get_file / get_file_raw: fetch a file row by id. -/
def get_file (db : DB) (fid : Nat) : Option FileRec :=
  db.files.find? (fun f => f.id == fid)

/-- storage.get_file_by_site_and_path: case-insensitive site match plus exact
path match (the lookup main.py performs before accepting an upload). -/
def get_file_by_site_and_path (db : DB) (source_site source_path : String) :
    Option FileRec :=
  db.files.find? (fun f =>
    strLower f.source_site == strLower source_site && f.source_path == source_path)

/-- storage.get_file_by_hash: lookup in the `files` table only. -/
def get_file_by_hash (db : DB) (h : String) : Option FileRec :=
  db.files.find? (fun f => f.sha256_hash == h)

/-- storage.check_file_history: lookup in the permanent `file_history` ledger. -/
def check_file_history (db : DB) (h : String) : Option HistoryEntry :=
  db.history.find? (fun e => e.sha256_hash == h)

/-- storage.file_exists_in_history: hash seen in the ledger, or (for backward
compatibility) in the `files` table. -/
def file_exists_in_history (db : DB) (h : String) : Bool :=
  (check_file_history db h).isSome || (get_file_by_hash db h).isSome

/-- storage.add_to_file_history: return the existing ledger row for the hash if
present (leaving the ledger untouched), otherwise insert a fresh row. -/
def add_to_file_history (db : DB) (h filename source_site : String)
    (file_size : Nat) : HistoryEntry × DB :=
  match db.history.find? (fun e => e.sha256_hash == h) with
  | some e => (e, db)
  | none =>
    let e : HistoryEntry :=
      { sha256_hash := h, filename := filename, source_site := source_site
        file_size := file_size }
    (e, { db with history := e :: db.history })

/-- storage.create_file: insert a `files` row in state 'detected'. -/
def create_file (db : DB) (filename source_site source_path : String)
    (file_size : Nat) (h : String) : FileRec × DB :=
  let f : FileRec :=
    { id := db.next_id, filename := filename, source_site := source_site
      source_path := source_path, file_size := file_size, sha256_hash := h
      state := FState.detected, locked := false, assigned_to := none
      transfer_progress := 0, error_message := none }
  (f, { db with files := f :: db.files, next_id := db.next_id + 1 })

/-- storage.update_file: apply a field update to the row with the given id. -/
def update_file (db : DB) (fid : Nat) (u : FileRec → FileRec) : DB :=
  { db with files := db.files.map (fun f => if f.id == fid then u f else f) }

/-- storage.create_audit_log: insert an `audit_logs` row. -/
def create_audit_log (db : DB) (e : AuditLog) : DB :=
  { db with audit_logs := e :: db.audit_logs }

/-- storage.delete_file: refuse when the row is locked; otherwise cascade the
removal of audit logs and transfer jobs, then the file row. Returns the new
state, the success flag and the message of the result dict. -/
def delete_file (db : DB) (fid : Nat) : DB × Bool × String :=
  match get_file db fid with
  | none => (db, false, "File not found")
  | some f =>
    if f.locked then
      (db, false, "Cannot delete: file is locked (validated files cannot be deleted)")
    else
      ({ db with
          audit_logs := db.audit_logs.filter (fun a => a.file_id != some fid)
          transfer_jobs := db.transfer_jobs.filter (fun t => t.file_id != fid)
          files := db.files.filter (fun g => g.id != fid) },
       true, "File deleted successfully")

/-- storage.delete_file_record: force delete for retransfer — removes cleanup
tasks, transfer jobs, audit logs and the file row, with no locked check. -/
def delete_file_record (db : DB) (fid : Nat) : DB :=
  { db with
      cleanup_tasks := db.cleanup_tasks.filter (fun t => t.file_id != fid)
      transfer_jobs := db.transfer_jobs.filter (fun t => t.file_id != fid)
      audit_logs := db.audit_logs.filter (fun a => a.file_id != some fid)
      files := db.files.filter (fun g => g.id != fid) }

/-- storage.mark_cleanup_orchestrator_done: the UPDATE sets only the
center-side flag; the status column is not touched. -/
def mark_cleanup_orchestrator_done (t : CleanupTask) : CleanupTask :=
  { t with orchestrator_deleted := true }

/-- storage.mark_cleanup_daemon_done: the UPDATE sets the site-side flag and
completes the task only when the center-side flag was already set. -/
def mark_cleanup_daemon_done (t : CleanupTask) : CleanupTask :=
  { t with
      daemon_deleted := true
      status := if t.orchestrator_deleted then "completed" else t.status }

end storage

/-- Structured errors raised by the HTTP handlers of main.py. -/
inductive ApiErr
  | missingHeaders
  | unknownSite
  | conflict
  | invalidFilename
  | sizeMismatch
  | hashMismatch
  | notFound
  | badState
  | noUser
  | badRequest
  | verifyFailed
deriving DecidableEq, Repr

namespace main

/-- The site-existence test of the upload handlers: the declared source site
must match a registered site name case-insensitively. -/
def siteRegistered (db : DB) (s : String) : Bool :=
  db.sites.any (fun site => strLower site.name == strLower s)

/-- os.path.basename on POSIX paths: the component after the last slash,
computed over the character list so it evaluates on concrete inputs. -/
def basename (s : String) : String :=
  ⟨s.data.foldl (fun acc c => if c = '/' then [] else acc ++ [c]) []⟩

/-- Substring occurrence test (Python's `in` on strings), used for the
path-traversal checks. -/
def containsSub (s pat : String) : Bool :=
  decide (pat.data <:+: s.data)

/-- The filename sanitization of the upload handlers: basename of the given
name (or "unnamed" when empty), rejected when empty or containing "..", "/"
or a backslash. -/
def sanitize (filename : String) : Option String :=
  let base := basename (if filename == "" then "unnamed" else filename)
  if base == "" || containsSub base ".." || containsSub base "/"
      || containsSub base "\\" then
    none
  else
    some base

/-- main.upload_file_stream. `H` abstracts SHA-256 over the received byte
stream; the second component of the result is the response, whose Bool flag
models the probable-duplicate warning the handler logs. The first component
is the resulting store/disk state (unchanged on every rejection path). -/
def upload_file_stream (H : List Nat → String) (db : DB) (filename : String)
    (expected_size : Nat) (expected_hash source_site source_path : String)
    (body : List Nat) : DB × Except ApiErr (FileRec × Bool) :=
  if source_site == "" || source_path == "" then
    (db, .error .missingHeaders)
  else if !siteRegistered db source_site then
    (db, .error .unknownSite)
  else
    match storage.get_file_by_site_and_path db source_site source_path with
    | some _ => (db, .error .conflict)
    | none =>
      match sanitize filename with
      | none => (db, .error .invalidFilename)
      | some safe =>
        let dest := (source_site, safe)
        let db1 : DB :=
          { db with disk := if db.disk.contains dest then db.disk
                            else dest :: db.disk }
        let file_size := body.length
        let sha256_hash := H body
        if expected_size > 0 && file_size != expected_size then
          ({ db1 with disk := db1.disk.filter (fun d => d != dest) },
           .error .sizeMismatch)
        else if expected_hash != "" && sha256_hash != expected_hash then
          ({ db1 with disk := db1.disk.filter (fun d => d != dest) },
           .error .hashMismatch)
        else
          let dup := (storage.get_file_by_hash db1 sha256_hash).isSome
          let created := storage.create_file db1 safe source_site source_path
            file_size sha256_hash
          let db3 := (storage.add_to_file_history created.2 sha256_hash safe
            source_site file_size).2
          match storage.get_file db3 created.1.id with
          | none => (db3, .error .verifyFailed)
          | some _ =>
            let db4 := storage.create_audit_log db3
              { file_id := some created.1.id
                action := "File uploaded and verified from " ++ source_site
                previous_state := none
                new_state := some FState.detected
                performed_by := none
                details := none }
            (db4, .ok (created.1, dup))

/-- main.check_file_exists (GET /api/files/check): 400 unless at least one of
hash, filename, source_path is supplied; reports existence from the
permanent history (by hash), then from the tracked (site, path) pair when
both site and source_path are supplied. -/
def check_file_exists (db : DB)
    (hash? filename? site? path? : Option String) : Except ApiErr Bool :=
  if hash?.isNone && filename?.isNone && path?.isNone then
    .error .badRequest
  else
    let hashKnown :=
      match hash? with
      | some h => storage.file_exists_in_history db h
      | none => false
    if hashKnown then
      .ok true
    else
      match site?, path? with
      | some s, some p => .ok (storage.get_file_by_site_and_path db s p).isSome
      | _, _ => .ok false

/-- The workflow transitions of main.py (reject included). -/
inductive TransKind
  | validate
  | queue
  | startTransfer
  | completeTransfer
  | assign
  | startWork
  | deliver
  | archive
  | reject
deriving DecidableEq, Repr

/-- main.validate_file: detected → validated, and the row is locked. -/
def validate_file (db : DB) (fid : Nat) : DB × Except ApiErr Unit :=
  match storage.get_file db fid with
  | none => (db, .error .notFound)
  | some f =>
    if f.state != FState.detected then (db, .error .badState)
    else
      let db1 := storage.update_file db fid
        (fun g => { g with state := FState.validated, locked := true })
      (storage.create_audit_log db1
        { file_id := some fid, action := "File validated and locked"
          previous_state := some FState.detected
          new_state := some FState.validated
          performed_by := none, details := none },
       .ok ())

/-- main.queue_file: validated → queued. -/
def queue_file (db : DB) (fid : Nat) : DB × Except ApiErr Unit :=
  match storage.get_file db fid with
  | none => (db, .error .notFound)
  | some f =>
    if f.state != FState.validated then (db, .error .badState)
    else
      let db1 := storage.update_file db fid
        (fun g => { g with state := FState.queued })
      (storage.create_audit_log db1
        { file_id := some fid, action := "File queued for transfer"
          previous_state := some FState.validated
          new_state := some FState.queued
          performed_by := none, details := none },
       .ok ())

/-- main.start_transfer: queued → transferring. -/
def start_transfer (db : DB) (fid : Nat) : DB × Except ApiErr Unit :=
  match storage.get_file db fid with
  | none => (db, .error .notFound)
  | some f =>
    if f.state != FState.queued then (db, .error .badState)
    else
      let db1 := storage.update_file db fid
        (fun g => { g with state := FState.transferring })
      (storage.create_audit_log db1
        { file_id := some fid, action := "Transfer started"
          previous_state := some FState.queued
          new_state := some FState.transferring
          performed_by := none, details := none },
       .ok ())

/-- main.complete_transfer: transferring → transferred, progress 100. -/
def complete_transfer (db : DB) (fid : Nat) : DB × Except ApiErr Unit :=
  match storage.get_file db fid with
  | none => (db, .error .notFound)
  | some f =>
    if f.state != FState.transferring then (db, .error .badState)
    else
      let db1 := storage.update_file db fid
        (fun g => { g with state := FState.transferred, transfer_progress := 100 })
      (storage.create_audit_log db1
        { file_id := some fid, action := "Transfer completed"
          previous_state := some FState.transferring
          new_state := some FState.transferred
          performed_by := none, details := none },
       .ok ())

/-- main.assign_file: validated or transferred → colorist_assigned. The owner
is the requested user, else the first colorist, else the first user with an
eligible role; the audit row hardcodes previous_state 'transferred' and
records the assignee as performer. -/
def assign_file (db : DB) (fid : Nat) (req_user : Option Nat) :
    DB × Except ApiErr Unit :=
  match storage.get_file db fid with
  | none => (db, .error .notFound)
  | some f =>
    if !(f.state == FState.validated || f.state == FState.transferred) then
      (db, .error .badState)
    else
      let user_id? : Option Nat :=
        match req_user with
        | some u => some u
        | none =>
          match db.users.find? (fun u => u.role == "colorist") with
          | some c => some c.id
          | none =>
            (db.users.find? (fun u =>
              u.role == "colorist" || u.role == "engineer"
                || u.role == "admin")).map (fun u => u.id)
      match user_id? with
      | none => (db, .error .noUser)
      | some uid =>
        let db1 := storage.update_file db fid
          (fun g => { g with state := FState.colorist_assigned
                             assigned_to := some uid })
        (storage.create_audit_log db1
          { file_id := some fid, action := "Assigned to colorist"
            previous_state := some FState.transferred
            new_state := some FState.colorist_assigned
            performed_by := some uid, details := none },
         .ok ())

/-- main.start_work: colorist_assigned → in_progress. -/
def start_work (db : DB) (fid : Nat) : DB × Except ApiErr Unit :=
  match storage.get_file db fid with
  | none => (db, .error .notFound)
  | some f =>
    if f.state != FState.colorist_assigned then (db, .error .badState)
    else
      let db1 := storage.update_file db fid
        (fun g => { g with state := FState.in_progress })
      (storage.create_audit_log db1
        { file_id := some fid, action := "Color work started"
          previous_state := some FState.colorist_assigned
          new_state := some FState.in_progress
          performed_by := none, details := none },
       .ok ())

/-- main.deliver_file: in_progress → delivered_to_mam. -/
def deliver_file (db : DB) (fid : Nat) : DB × Except ApiErr Unit :=
  match storage.get_file db fid with
  | none => (db, .error .notFound)
  | some f =>
    if f.state != FState.in_progress then (db, .error .badState)
    else
      let db1 := storage.update_file db fid
        (fun g => { g with state := FState.delivered_to_mam })
      (storage.create_audit_log db1
        { file_id := some fid, action := "Delivered to MAM"
          previous_state := some FState.in_progress
          new_state := some FState.delivered_to_mam
          performed_by := none, details := none },
       .ok ())

/-- main.archive_file: delivered_to_mam → archived. -/
def archive_file (db : DB) (fid : Nat) : DB × Except ApiErr Unit :=
  match storage.get_file db fid with
  | none => (db, .error .notFound)
  | some f =>
    if f.state != FState.delivered_to_mam then (db, .error .badState)
    else
      let db1 := storage.update_file db fid
        (fun g => { g with state := FState.archived })
      (storage.create_audit_log db1
        { file_id := some fid, action := "File archived"
          previous_state := some FState.delivered_to_mam
          new_state := some FState.archived
          performed_by := none, details := none },
       .ok ())

/-- main.reject_file: any state → rejected, recording the reason and the
actual previous state. -/
def reject_file (db : DB) (fid : Nat) (reason : Option String) :
    DB × Except ApiErr Unit :=
  match storage.get_file db fid with
  | none => (db, .error .notFound)
  | some f =>
    let db1 := storage.update_file db fid
      (fun g => { g with state := FState.rejected, error_message := reason })
    (storage.create_audit_log db1
      { file_id := some fid, action := "File rejected"
        previous_state := some f.state
        new_state := some FState.rejected
        performed_by := none, details := reason },
     .ok ())

/-- main.delete_file (DELETE /api/files/id): delegates to storage.delete_file
and turns a failed result into a 400 error. -/
def delete_file_endpoint (db : DB) (fid : Nat) : DB × Except ApiErr Unit :=
  let r := storage.delete_file db fid
  if r.2.1 then (r.1, .ok ()) else (r.1, .error .badState)

/-- Dispatch a workflow transition to its handler. -/
def applyTrans (t : TransKind) (db : DB) (fid : Nat) (req_user : Option Nat)
    (reason : Option String) : DB × Except ApiErr Unit :=
  match t with
  | .validate => validate_file db fid
  | .queue => queue_file db fid
  | .startTransfer => start_transfer db fid
  | .completeTransfer => complete_transfer db fid
  | .assign => assign_file db fid req_user
  | .startWork => start_work db fid
  | .deliver => deliver_file db fid
  | .archive => archive_file db fid
  | .reject => reject_file db fid reason

/-- The precondition table of the state machine (§4.2): the states from which
each transition is accepted. -/
def precond (t : TransKind) (s : FState) : Bool :=
  match t with
  | .validate => s == FState.detected
  | .queue => s == FState.validated
  | .startTransfer => s == FState.queued
  | .completeTransfer => s == FState.transferring
  | .assign => s == FState.validated || s == FState.transferred
  | .startWork => s == FState.colorist_assigned
  | .deliver => s == FState.in_progress
  | .archive => s == FState.delivered_to_mam
  | .reject => true

/-- The state a successful transition moves the file to. -/
def transTarget (t : TransKind) : FState :=
  match t with
  | .validate => FState.validated
  | .queue => FState.queued
  | .startTransfer => FState.transferring
  | .completeTransfer => FState.transferred
  | .assign => FState.colorist_assigned
  | .startWork => FState.in_progress
  | .deliver => FState.delivered_to_mam
  | .archive => FState.archived
  | .reject => FState.rejected

/-- The previous_state value each handler writes into its audit row: the
precondition state for the linear transitions, the actual current state for
reject, and the hardcoded 'transferred' for assign. -/
def recordedPrev (t : TransKind) (s : FState) : Option FState :=
  match t with
  | .validate => some FState.detected
  | .queue => some FState.validated
  | .startTransfer => some FState.queued
  | .completeTransfer => some FState.transferring
  | .assign => some FState.transferred
  | .startWork => some FState.colorist_assigned
  | .deliver => some FState.in_progress
  | .archive => some FState.delivered_to_mam
  | .reject => some s

end main

namespace daemon

/-- The query of daemon.check_file_exists_on_server: params hash, filename,
site — no source_path is sent — evaluated against the server's
/api/files/check handler. A non-200 or failed check proceeds with the
upload, so only the ok-branch of the server answer is consulted. -/
def check_file_exists_on_server (db : DB) (sha256_hash filename site : String) :
    Bool :=
  match main.check_file_exists db (some sha256_hash) (some filename)
      (some site) none with
  | .ok b => b
  | .error _ => false

/-- daemon.upload_file up to the point bytes are sent: the hash is computed
first, the server is consulted, and a positive answer skips the upload.
Returns true when the daemon goes on to stream the file's bytes. -/
def sends_bytes (db : DB) (sha256_hash filename site : String) : Bool :=
  !check_file_exists_on_server db sha256_hash filename site

/-- The per-file tracking record of SiteDaemon.writing_files: last observed
size and mtime, and the time since which the file is unchanged. -/
structure TrackInfo where
  last_size : Nat
  last_mtime : Nat
  stable_since : Nat
deriving DecidableEq, Repr

/-- One polling observation of a watched file. -/
structure Obs where
  time : Nat
  size : Nat
  mtime : Nat
  present : Bool
deriving DecidableEq, Repr

/-- Result of one stability check: is_stable, should_track, and the tracking
record afterwards (none when the file is dropped from writing_files). -/
structure StabRes where
  is_stable : Bool
  should_track : Bool
  info : Option TrackInfo
deriving DecidableEq, Repr

/-- SiteDaemon.check_file_stability_instant, for a file already (or not yet)
tracked in writing_files, at one observation. `w` is FILE_STABILITY_SECONDS. -/
def check_file_stability_instant (w : Nat) (info? : Option TrackInfo)
    (o : Obs) : StabRes :=
  if !o.present then
    { is_stable := false, should_track := false, info := none }
  else
    match info? with
    | none =>
      { is_stable := false, should_track := true
        info := some { last_size := o.size, last_mtime := o.mtime
                       stable_since := o.time } }
    | some info =>
      if o.size != info.last_size || o.mtime != info.last_mtime then
        { is_stable := false, should_track := true
          info := some { last_size := o.size, last_mtime := o.mtime
                         stable_since := o.time } }
      else if w ≤ o.time - info.stable_since then
        { is_stable := true, should_track := false, info := none }
      else
        { is_stable := false, should_track := true, info := some info }

/-- The polling loop of SiteDaemon.check_writing_files applied to one tracked
file: repeats the instant check over successive observations and returns the
time at which the file is reported stable (none when it never is, or when it
disappears and is dropped). -/
def runStability (w : Nat) (info : TrackInfo) : List Obs → Option Nat
  | [] => none
  | o :: rest =>
    let r := check_file_stability_instant w (some info) o
    if r.is_stable then some o.time
    else
      match r.info with
      | some info' => if r.should_track then runStability w info' rest else none
      | none => none

end daemon

/-! Concrete fixtures used by witnesses and counterexamples. -/

/-- A cleanup task with neither side confirmed. -/
def exTask2 : CleanupTask :=
  { id := 1, file_id := 1, status := "pending"
    orchestrator_deleted := false, daemon_deleted := false }

/-- A cleanup task whose center side already confirmed. -/
def exTask2W : CleanupTask :=
  { id := 2, file_id := 2, status := "pending"
    orchestrator_deleted := true, daemon_deleted := false }

/-- A validated, locked file. -/
def exFile3 : FileRec :=
  { id := 1, filename := "a.mov", source_site := "tustin"
    source_path := "/mnt/tustin_exports/a.mov", file_size := 10
    sha256_hash := "h1", state := FState.validated, locked := true
    assigned_to := none, transfer_progress := 0, error_message := none }

/-- A store holding the locked file with an audit row and a transfer job. -/
def exDB3 : DB :=
  { files := [exFile3], history := []
    audit_logs := [{ file_id := some 1, action := "File validated and locked"
                     previous_state := some FState.detected
                     new_state := some FState.validated
                     performed_by := none, details := none }]
    transfer_jobs := [{ file_id := 1 }], cleanup_tasks := []
    sites := [], users := [], disk := [], next_id := 2 }

/-- A freshly detected, unlocked file. -/
def exFile4 : FileRec :=
  { id := 1, filename := "b.mov", source_site := "tustin"
    source_path := "/mnt/tustin_exports/b.mov", file_size := 5
    sha256_hash := "h2", state := FState.detected, locked := false
    assigned_to := none, transfer_progress := 0, error_message := none }

/-- A store holding one detected file. -/
def exDB4 : DB :=
  { files := [exFile4], history := [], audit_logs := [], transfer_jobs := []
    cleanup_tasks := [], sites := [], users := [], disk := [], next_id := 2 }

/-- A validated file awaiting assignment. -/
def exFile7 : FileRec :=
  { id := 1, filename := "c.mov", source_site := "tustin"
    source_path := "/mnt/tustin_exports/c.mov", file_size := 7
    sha256_hash := "h3", state := FState.validated, locked := true
    assigned_to := none, transfer_progress := 0, error_message := none }

/-- A store holding the validated file and one colorist. -/
def exDB7 : DB :=
  { files := [exFile7], history := [], audit_logs := [], transfer_jobs := []
    cleanup_tasks := [], sites := [], users := [{ id := 7, role := "colorist" }]
    disk := [], next_id := 2 }

/-- A tracked file at a known (site, path) origin with hash "aaa". -/
def exFile6 : FileRec :=
  { id := 1, filename := "f.mov", source_site := "tustin"
    source_path := "/exports/f.mov", file_size := 4, sha256_hash := "aaa"
    state := FState.detected, locked := false, assigned_to := none
    transfer_progress := 0, error_message := none }

/-- A store where (tustin, /exports/f.mov) is already tracked. -/
def exDB6 : DB :=
  { files := [exFile6], history := [{ sha256_hash := "aaa", filename := "f.mov"
                                      source_site := "tustin", file_size := 4 }]
    audit_logs := [], transfer_jobs := [], cleanup_tasks := []
    sites := [{ name := "tustin" }], users := [], disk := [], next_id := 2 }

/-- An empty store with one registered site, for upload round-trips. -/
def exDB1 : DB :=
  { files := [], history := [], audit_logs := [], transfer_jobs := []
    cleanup_tasks := [], sites := [{ name := "tustin" }], users := []
    disk := [], next_id := 0 }

/-- A store whose content ledger already knows hash "abc" from another site,
while no `files` row carries that hash. -/
def exDB9 : DB :=
  { files := [], history := [{ sha256_hash := "abc", filename := "old.mov"
                               source_site := "nashville", file_size := 2 }]
    audit_logs := [], transfer_jobs := [], cleanup_tasks := []
    sites := [{ name := "tustin" }], users := [], disk := [], next_id := 0 }

/-- A transferred file whose content hash "abc" sits in the files table. -/
def exFile9 : FileRec :=
  { id := 5, filename := "old2.mov", source_site := "nashville"
    source_path := "/exports/old2.mov", file_size := 1, sha256_hash := "abc"
    state := FState.transferred, locked := true, assigned_to := none
    transfer_progress := 100, error_message := none }

/-- A store where hash "abc" is carried by an existing files row. -/
def exDB9F : DB :=
  { files := [exFile9]
    history := [{ sha256_hash := "abc", filename := "old2.mov"
                  source_site := "nashville", file_size := 1 }]
    audit_logs := [], transfer_jobs := [], cleanup_tasks := []
    sites := [{ name := "tustin" }], users := [], disk := [], next_id := 6 }

/-- A concrete stand-in for SHA-256 in witnesses: every stream hashes to
"abc". Only digest equality matters to the handlers. -/
def exHash : List Nat → String := fun _ => "abc"

/-! Helper lemmas about the storage layer. -/

/-- Adding to the ledger never touches the `files` table. -/
theorem hist_files (db : DB) (h fn s : String) (z : Nat) :
    (storage.add_to_file_history db h fn s z).2.files = db.files := by
  cases hfind : db.history.find? (fun e => e.sha256_hash == h) <;>
    simp [storage.add_to_file_history, hfind]

/-- Adding to the ledger never touches the audit trail. -/
theorem hist_audit (db : DB) (h fn s : String) (z : Nat) :
    (storage.add_to_file_history db h fn s z).2.audit_logs = db.audit_logs := by
  cases hfind : db.history.find? (fun e => e.sha256_hash == h) <;>
    simp [storage.add_to_file_history, hfind]

/-- After `add_to_file_history`, the ledger contains the hash. -/
theorem hist_mem (db : DB) (h fn s : String) (z : Nat) :
    (storage.check_file_history
      (storage.add_to_file_history db h fn s z).2 h).isSome = true := by
  cases hfind : db.history.find? (fun e => e.sha256_hash == h) with
  | some e =>
    simp [storage.add_to_file_history, storage.check_file_history, hfind]
  | none =>
    simp [storage.add_to_file_history, storage.check_file_history, hfind,
      List.find?_cons]

/-- The committed file row is retrievable after the ledger write
(the write-then-read verification step of the streaming handler). -/
theorem get_file_after_commit (db : DB) (fn ss sp : String) (z : Nat)
    (h h' fn' ss' : String) (z' : Nat) :
    storage.get_file
      (storage.add_to_file_history (storage.create_file db fn ss sp z h).2
        h' fn' ss' z').2
      (storage.create_file db fn ss sp z h).1.id
      = some (storage.create_file db fn ss sp z h).1 := by
  unfold storage.get_file
  rw [hist_files]
  simp [storage.create_file, List.find?_cons]

/-! Claim C2 — cleanup task completion. -/

/-- C2 counterexample: confirming site-then-center sets both flags yet leaves
the task's status 'pending' — completion is not reached under this ordering,
refuting the claimed iff. -/
theorem C2_counterexample :
    (storage.mark_cleanup_orchestrator_done
      (storage.mark_cleanup_daemon_done exTask2)).orchestrator_deleted = true ∧
    (storage.mark_cleanup_orchestrator_done
      (storage.mark_cleanup_daemon_done exTask2)).daemon_deleted = true ∧
    (storage.mark_cleanup_orchestrator_done
      (storage.mark_cleanup_daemon_done exTask2)).status ≠ "completed" := by
  refine ⟨rfl, rfl, ?_⟩
  decide

/-- C2 (amended): confirming center-then-site completes a cleanup task with
both flags set; the center-side mark never changes the status; and the
site-side mark reaches 'completed' (from any other status) only when the
center-side flag was already true, in which case both flags hold afterwards.
Site-then-center leaves the task pending (see the counterexample). -/
theorem C2_cleanup_completion :
    (∀ t : CleanupTask,
      (storage.mark_cleanup_daemon_done
        (storage.mark_cleanup_orchestrator_done t)).status = "completed" ∧
      (storage.mark_cleanup_daemon_done
        (storage.mark_cleanup_orchestrator_done t)).orchestrator_deleted = true ∧
      (storage.mark_cleanup_daemon_done
        (storage.mark_cleanup_orchestrator_done t)).daemon_deleted = true) ∧
    (∀ t : CleanupTask,
      (storage.mark_cleanup_orchestrator_done t).status = t.status) ∧
    (∀ t : CleanupTask,
      (storage.mark_cleanup_daemon_done t).status = "completed" →
      t.status = "completed" ∨
        (t.orchestrator_deleted = true ∧
         (storage.mark_cleanup_daemon_done t).orchestrator_deleted = true ∧
         (storage.mark_cleanup_daemon_done t).daemon_deleted = true)) := by
  refine ⟨fun t => ⟨?_, rfl, rfl⟩, fun t => rfl, fun t hdone => ?_⟩
  · simp [storage.mark_cleanup_daemon_done, storage.mark_cleanup_orchestrator_done]
  · by_cases ho : t.orchestrator_deleted
    · exact Or.inr ⟨ho, by simp [storage.mark_cleanup_daemon_done, ho], rfl⟩
    · left
      simpa [storage.mark_cleanup_daemon_done, ho] using hdone

/-- C2 witness: the amended theorem applied to a task whose center side is
already confirmed; the site-side mark completes it with both flags set. -/
theorem C2_cleanup_completion_witness :
    exTask2W.status = "completed" ∨
      (exTask2W.orchestrator_deleted = true ∧
       (storage.mark_cleanup_daemon_done exTask2W).orchestrator_deleted = true ∧
       (storage.mark_cleanup_daemon_done exTask2W).daemon_deleted = true) :=
  C2_cleanup_completion.2.2 exTask2W (by rfl)

/-! Claim C3 — deletion of locked files. -/

/-- C3 counterexample: a locked file is nonetheless removed by the registry's
force-delete path `delete_file_record`, so not every deletion operation is
blocked by the lock. -/
theorem C3_counterexample :
    storage.get_file exDB3 1 = some exFile3 ∧
    exFile3.locked = true ∧
    storage.get_file (storage.delete_file_record exDB3 1) 1 = none := by
  refine ⟨by decide, rfl, by decide⟩

/-- C3 (amended): the standard deletion path `delete_file` refuses every
locked file, returning the locked-file error with the store — file, audit
entries and transfer jobs — unchanged; the force-delete path
`delete_file_record` used for retransfer removes the file regardless of the
lock. -/
theorem C3_locked_delete :
    (∀ (db : DB) (fid : Nat) (f : FileRec),
      storage.get_file db fid = some f → f.locked = true →
      storage.delete_file db fid =
        (db, false,
         "Cannot delete: file is locked (validated files cannot be deleted)")) ∧
    (∀ (db : DB) (fid : Nat),
      storage.get_file (storage.delete_file_record db fid) fid = none) := by
  constructor
  · intro db fid f hget hlock
    unfold storage.delete_file
    rw [hget]
    simp [hlock]
  · intro db fid
    unfold storage.get_file storage.delete_file_record
    rw [List.find?_eq_none]
    intro g hg
    have hmem := (List.mem_filter.mp hg).2
    simp only [bne_iff_ne, ne_eq] at hmem
    simpa using hmem

/-- C3 witness: the amended theorem applied to the locked fixture. -/
theorem C3_locked_delete_witness :
    storage.delete_file exDB3 1 =
      (exDB3, false,
       "Cannot delete: file is locked (validated files cannot be deleted)") :=
  C3_locked_delete.1 exDB3 1 exFile3 (by decide) rfl

/-! Claim C5 — ledger record idempotence. -/

/-- C5: `add_to_file_history` is idempotent in the hash — a second call with
the same hash (whatever filename, site and size it passes) returns the very
entry of the first call and leaves the ledger state unchanged. -/
theorem C5_history_record_idempotent :
    ∀ (db : DB) (h fn site : String) (z : Nat) (fn' site' : String) (z' : Nat),
      (storage.add_to_file_history
        (storage.add_to_file_history db h fn site z).2 h fn' site' z').1
        = (storage.add_to_file_history db h fn site z).1 ∧
      (storage.add_to_file_history
        (storage.add_to_file_history db h fn site z).2 h fn' site' z').2
        = (storage.add_to_file_history db h fn site z).2 := by
  intro db h fn site z fn' site' z'
  cases hfind : db.history.find? (fun e => e.sha256_hash == h) with
  | some e =>
    constructor <;> simp [storage.add_to_file_history, hfind]
  | none =>
    constructor <;>
      simp [storage.add_to_file_history, hfind, List.find?_cons]

/-! Claim C6 — daemon pre-upload dedup check. -/

/-- C6 counterexample: the (site, path) origin is already tracked at the
center, yet the daemon still proceeds to send bytes, because its pre-check
sends no source_path and the center therefore only tests the hash; no local
ledger is consulted either. -/
theorem C6_counterexample :
    (storage.get_file_by_site_and_path exDB6 "tustin" "/exports/f.mov").isSome
      = true ∧
    daemon.sends_bytes exDB6 "bbb" "f.mov" "tustin" = true := by
  refine ⟨by decide, by decide⟩

/-- C6 (amended): before any bytes are transferred the daemon queries the
center once, passing hash, filename and site but no source path; the upload
is skipped exactly when the center knows the content hash (permanent ledger
or files table). No local-ledger check exists, and the tracked (site, path)
pair is never consulted by the pre-check. -/
theorem C6_dedup_check :
    ∀ (db : DB) (h fn site : String),
      daemon.sends_bytes db h fn site = !storage.file_exists_in_history db h := by
  intro db h fn site
  unfold daemon.sends_bytes daemon.check_file_exists_on_server
    main.check_file_exists
  cases hk : storage.file_exists_in_history db h <;> simp [hk]

/-! Claim C4 — rejected transitions mutate nothing. -/

/-- C4: whenever the file's current state fails the precondition table for a
requested transition, the handler returns the structured bad-state rejection
and the entire store — the file, every other field, and the audit trail — is
returned unchanged. -/
theorem C4_precondition_rejection :
    ∀ (t : main.TransKind) (db : DB) (fid : Nat) (req_user : Option Nat)
      (reason : Option String) (f : FileRec),
      storage.get_file db fid = some f →
      main.precond t f.state = false →
      main.applyTrans t db fid req_user reason = (db, .error ApiErr.badState) := by
  intro t db fid req_user reason f hget hpre
  cases t with
  | validate =>
    simp only [main.precond] at hpre
    simp [main.applyTrans, main.validate_file, hget, bne, hpre]
  | queue =>
    simp only [main.precond] at hpre
    simp [main.applyTrans, main.queue_file, hget, bne, hpre]
  | startTransfer =>
    simp only [main.precond] at hpre
    simp [main.applyTrans, main.start_transfer, hget, bne, hpre]
  | completeTransfer =>
    simp only [main.precond] at hpre
    simp [main.applyTrans, main.complete_transfer, hget, bne, hpre]
  | assign =>
    simp only [main.precond] at hpre
    simp [main.applyTrans, main.assign_file, hget, hpre]
  | startWork =>
    simp only [main.precond] at hpre
    simp [main.applyTrans, main.start_work, hget, bne, hpre]
  | deliver =>
    simp only [main.precond] at hpre
    simp [main.applyTrans, main.deliver_file, hget, bne, hpre]
  | archive =>
    simp only [main.precond] at hpre
    simp [main.applyTrans, main.archive_file, hget, bne, hpre]
  | reject =>
    simp [main.precond] at hpre

/-- C4 witness: queueing a file that is still 'detected' is rejected and the
store is returned exactly as it was. -/
theorem C4_precondition_rejection_witness :
    main.applyTrans main.TransKind.queue exDB4 1 none none
      = (exDB4, .error ApiErr.badState) :=
  C4_precondition_rejection main.TransKind.queue exDB4 1 none none exFile4
    (by decide) (by decide)

/-! Claim C7 — audit rows on successful transitions. -/

/-- C7 counterexample: assigning a file that is in state 'validated' succeeds,
but the audit row records previous_state 'transferred', not the file's actual
state immediately before the transition. -/
theorem C7_counterexample :
    storage.get_file exDB7 1 = some exFile7 ∧
    exFile7.state = FState.validated ∧
    (main.assign_file exDB7 1 none).2 = .ok () ∧
    (main.assign_file exDB7 1 none).1.audit_logs.head?.map AuditLog.previous_state
      = some (some FState.transferred) ∧
    some FState.transferred ≠ some exFile7.state := by
  refine ⟨by decide, rfl, rfl, by decide, by decide⟩

/-- C7 (amended): every successful transition appends exactly one audit row;
its new_state is the transition's target, and its previous_state is the
file's actual prior state for every transition except assign, whose handler
hardcodes 'transferred' even when assigning from 'validated'. The actor
field is written only by assign, where it records the assignee. -/
theorem C7_audit_on_success :
    ∀ (t : main.TransKind) (db : DB) (fid : Nat) (req_user : Option Nat)
      (reason : Option String) (f : FileRec),
      storage.get_file db fid = some f →
      (main.applyTrans t db fid req_user reason).2 = .ok () →
      ∃ e : AuditLog,
        (main.applyTrans t db fid req_user reason).1.audit_logs
          = e :: db.audit_logs ∧
        e.previous_state = main.recordedPrev t f.state ∧
        e.new_state = some (main.transTarget t) ∧
        (main.recordedPrev t f.state = some f.state ∨
          t = main.TransKind.assign) ∧
        (t = main.TransKind.assign ∨ e.performed_by = none) := by
  intro t db fid req_user reason f hget hsucc
  cases t with
  | validate =>
    cases hb : (f.state == FState.detected) with
    | false => simp [main.applyTrans, main.validate_file, hget, bne, hb] at hsucc
    | true =>
      have hfs : f.state = FState.detected := by simpa using hb
      refine ⟨{ file_id := some fid, action := "File validated and locked"
                previous_state := some FState.detected
                new_state := some FState.validated
                performed_by := none, details := none },
              ?_, rfl, rfl, Or.inl (by rw [hfs]; rfl), Or.inr rfl⟩
      simp [main.applyTrans, main.validate_file, hget, bne, hb,
        storage.create_audit_log, storage.update_file]
  | queue =>
    cases hb : (f.state == FState.validated) with
    | false => simp [main.applyTrans, main.queue_file, hget, bne, hb] at hsucc
    | true =>
      have hfs : f.state = FState.validated := by simpa using hb
      refine ⟨{ file_id := some fid, action := "File queued for transfer"
                previous_state := some FState.validated
                new_state := some FState.queued
                performed_by := none, details := none },
              ?_, rfl, rfl, Or.inl (by rw [hfs]; rfl), Or.inr rfl⟩
      simp [main.applyTrans, main.queue_file, hget, bne, hb,
        storage.create_audit_log, storage.update_file]
  | startTransfer =>
    cases hb : (f.state == FState.queued) with
    | false => simp [main.applyTrans, main.start_transfer, hget, bne, hb] at hsucc
    | true =>
      have hfs : f.state = FState.queued := by simpa using hb
      refine ⟨{ file_id := some fid, action := "Transfer started"
                previous_state := some FState.queued
                new_state := some FState.transferring
                performed_by := none, details := none },
              ?_, rfl, rfl, Or.inl (by rw [hfs]; rfl), Or.inr rfl⟩
      simp [main.applyTrans, main.start_transfer, hget, bne, hb,
        storage.create_audit_log, storage.update_file]
  | completeTransfer =>
    cases hb : (f.state == FState.transferring) with
    | false => simp [main.applyTrans, main.complete_transfer, hget, bne, hb] at hsucc
    | true =>
      have hfs : f.state = FState.transferring := by simpa using hb
      refine ⟨{ file_id := some fid, action := "Transfer completed"
                previous_state := some FState.transferring
                new_state := some FState.transferred
                performed_by := none, details := none },
              ?_, rfl, rfl, Or.inl (by rw [hfs]; rfl), Or.inr rfl⟩
      simp [main.applyTrans, main.complete_transfer, hget, bne, hb,
        storage.create_audit_log, storage.update_file]
  | assign =>
    cases hb : (f.state == FState.validated || f.state == FState.transferred) with
    | false => simp [main.applyTrans, main.assign_file, hget, hb] at hsucc
    | true =>
      cases hru : req_user with
      | some u =>
        refine ⟨{ file_id := some fid, action := "Assigned to colorist"
                  previous_state := some FState.transferred
                  new_state := some FState.colorist_assigned
                  performed_by := some u, details := none },
                ?_, rfl, rfl, Or.inr rfl, Or.inl rfl⟩
        simp [main.applyTrans, main.assign_file, hget, hb, hru,
          storage.create_audit_log, storage.update_file]
      | none =>
        cases hcol : db.users.find? (fun u => u.role == "colorist") with
        | some c =>
          refine ⟨{ file_id := some fid, action := "Assigned to colorist"
                    previous_state := some FState.transferred
                    new_state := some FState.colorist_assigned
                    performed_by := some c.id, details := none },
                  ?_, rfl, rfl, Or.inr rfl, Or.inl rfl⟩
          simp [main.applyTrans, main.assign_file, hget, hb, hru, hcol,
            storage.create_audit_log, storage.update_file]
        | none =>
          cases hany : db.users.find? (fun u =>
              u.role == "colorist" || u.role == "engineer" || u.role == "admin") with
          | some a =>
            refine ⟨{ file_id := some fid, action := "Assigned to colorist"
                      previous_state := some FState.transferred
                      new_state := some FState.colorist_assigned
                      performed_by := some a.id, details := none },
                    ?_, rfl, rfl, Or.inr rfl, Or.inl rfl⟩
            simp [main.applyTrans, main.assign_file, hget, hb, hru, hcol, hany,
              storage.create_audit_log, storage.update_file]
          | none =>
            simp [main.applyTrans, main.assign_file, hget, hb, hru, hcol, hany]
              at hsucc
  | startWork =>
    cases hb : (f.state == FState.colorist_assigned) with
    | false => simp [main.applyTrans, main.start_work, hget, bne, hb] at hsucc
    | true =>
      have hfs : f.state = FState.colorist_assigned := by simpa using hb
      refine ⟨{ file_id := some fid, action := "Color work started"
                previous_state := some FState.colorist_assigned
                new_state := some FState.in_progress
                performed_by := none, details := none },
              ?_, rfl, rfl, Or.inl (by rw [hfs]; rfl), Or.inr rfl⟩
      simp [main.applyTrans, main.start_work, hget, bne, hb,
        storage.create_audit_log, storage.update_file]
  | deliver =>
    cases hb : (f.state == FState.in_progress) with
    | false => simp [main.applyTrans, main.deliver_file, hget, bne, hb] at hsucc
    | true =>
      have hfs : f.state = FState.in_progress := by simpa using hb
      refine ⟨{ file_id := some fid, action := "Delivered to MAM"
                previous_state := some FState.in_progress
                new_state := some FState.delivered_to_mam
                performed_by := none, details := none },
              ?_, rfl, rfl, Or.inl (by rw [hfs]; rfl), Or.inr rfl⟩
      simp [main.applyTrans, main.deliver_file, hget, bne, hb,
        storage.create_audit_log, storage.update_file]
  | archive =>
    cases hb : (f.state == FState.delivered_to_mam) with
    | false => simp [main.applyTrans, main.archive_file, hget, bne, hb] at hsucc
    | true =>
      have hfs : f.state = FState.delivered_to_mam := by simpa using hb
      refine ⟨{ file_id := some fid, action := "File archived"
                previous_state := some FState.delivered_to_mam
                new_state := some FState.archived
                performed_by := none, details := none },
              ?_, rfl, rfl, Or.inl (by rw [hfs]; rfl), Or.inr rfl⟩
      simp [main.applyTrans, main.archive_file, hget, bne, hb,
        storage.create_audit_log, storage.update_file]
  | reject =>
    refine ⟨{ file_id := some fid, action := "File rejected"
              previous_state := some f.state
              new_state := some FState.rejected
              performed_by := none, details := reason },
            ?_, rfl, rfl, Or.inl rfl, Or.inr rfl⟩
    simp [main.applyTrans, main.reject_file, hget,
      storage.create_audit_log, storage.update_file]

/-- C7 witness: a successful validate appends exactly the expected audit row. -/
theorem C7_audit_on_success_witness :
    ∃ e : AuditLog,
      (main.applyTrans main.TransKind.validate exDB4 1 none none).1.audit_logs
        = e :: exDB4.audit_logs ∧
      e.previous_state = main.recordedPrev main.TransKind.validate exFile4.state ∧
      e.new_state = some (main.transTarget main.TransKind.validate) ∧
      (main.recordedPrev main.TransKind.validate exFile4.state
          = some exFile4.state ∨
        main.TransKind.validate = main.TransKind.assign) ∧
      (main.TransKind.validate = main.TransKind.assign ∨ e.performed_by = none) :=
  C7_audit_on_success main.TransKind.validate exDB4 1 none none exFile4
    (by decide) rfl

/-! Claim C8 — file stability detection. -/

/-- C8: (1) a check that observes a size or mtime differing from the tracked
values never reports the file stable; (2) once a change has been recorded at
time t (tracked values s, m with stable-since t), a run of checks over later
observations that all show the file present and unchanged reports stability
no earlier than t plus the configured window w. -/
theorem C8_stability :
    (∀ (w : Nat) (info : daemon.TrackInfo) (o : daemon.Obs),
      o.size ≠ info.last_size ∨ o.mtime ≠ info.last_mtime →
      (daemon.check_file_stability_instant w (some info) o).is_stable = false) ∧
    (∀ (w s m t : Nat) (l : List daemon.Obs) (T : Nat),
      (∀ o ∈ l, o.present = true ∧ o.size = s ∧ o.mtime = m ∧ t ≤ o.time) →
      daemon.runStability w ⟨s, m, t⟩ l = some T →
      t + w ≤ T) := by
  constructor
  · intro w info o hch
    unfold daemon.check_file_stability_instant
    cases hp : o.present with
    | false => simp
    | true =>
      have hb : (o.size != info.last_size || o.mtime != info.last_mtime) = true := by
        cases hch with
        | inl h => simp [bne_iff_ne, h]
        | inr h => simp [bne_iff_ne, h]
      simp [hb]
  · intro w s m t l
    induction l with
    | nil =>
      intro T _ hrun
      simp [daemon.runStability] at hrun
    | cons o rest ih =>
      intro T hall hrun
      obtain ⟨hp, hs, hm, ht⟩ := hall o (List.mem_cons_self o rest)
      by_cases hw : w ≤ o.time - t
      · have hstep : daemon.check_file_stability_instant w (some ⟨s, m, t⟩) o
            = { is_stable := true, should_track := false, info := none } := by
          simp [daemon.check_file_stability_instant, hp, hs, hm, hw]
        rw [daemon.runStability, hstep] at hrun
        simp at hrun
        omega
      · have hstep : daemon.check_file_stability_instant w (some ⟨s, m, t⟩) o
            = { is_stable := false, should_track := true, info := some ⟨s, m, t⟩ } := by
          simp [daemon.check_file_stability_instant, hp, hs, hm, hw]
        rw [daemon.runStability, hstep] at hrun
        simp at hrun
        exact ih T (fun o' ho' => hall o' (List.mem_cons_of_mem o ho')) hrun

/-- C8 witness: a check observing a size change (12 against tracked 10) does
not report stability, and a file whose last change was recorded at time 0
and that is observed unchanged at time 60 is reported stable at time 60,
respecting the 60-second window. -/
theorem C8_stability_witness :
    (daemon.check_file_stability_instant 60 (some ⟨10, 3, 0⟩)
      ⟨5, 12, 3, true⟩).is_stable = false ∧
    daemon.runStability 60 ⟨10, 3, 0⟩ [⟨60, 10, 3, true⟩] = some 60 ∧
    0 + 60 ≤ 60 :=
  ⟨C8_stability.1 60 ⟨10, 3, 0⟩ ⟨5, 12, 3, true⟩ (Or.inl (by decide)), rfl,
   C8_stability.2 60 10 3 0 [⟨60, 10, 3, true⟩] 60 (by decide) rfl⟩

/-- Appending an audit row leaves the ledger lookup unchanged. -/
theorem audit_hist (db : DB) (e : AuditLog) (h : String) :
    storage.check_file_history (storage.create_audit_log db e) h
      = storage.check_file_history db h := rfl

/-- Appending an audit row leaves the file lookup unchanged. -/
theorem audit_get_file (db : DB) (e : AuditLog) (fid : Nat) :
    storage.get_file (storage.create_audit_log db e) fid
      = storage.get_file db fid := rfl

/-! Claim C10 — size verification is skipped when X-File-Size is absent/0. -/

/-- C10: for a streamed upload that passes the header, site, origin-conflict
and filename checks, a size-mismatch error is raised exactly when the
declared expected size is positive and differs from the received byte count;
with expected size 0 (the header default) and no declared hash, the upload is
accepted whatever the received byte count. -/
theorem C10_size_check_skipped :
    ∀ (H : List Nat → String) (db : DB) (filename : String)
      (expected_size : Nat) (expected_hash source_site source_path : String)
      (body : List Nat) (safe : String),
      source_site ≠ "" → source_path ≠ "" →
      main.siteRegistered db source_site = true →
      storage.get_file_by_site_and_path db source_site source_path = none →
      main.sanitize filename = some safe →
      (((main.upload_file_stream H db filename expected_size expected_hash
          source_site source_path body).2 = .error ApiErr.sizeMismatch) ↔
        (expected_size > 0 ∧ body.length ≠ expected_size)) ∧
      (expected_size = 0 → expected_hash = "" →
        ∃ rec warn,
          (main.upload_file_stream H db filename expected_size expected_hash
            source_site source_path body).2 = .ok (rec, warn)) := by
  intro H db filename es eh ss sp body safe h1 h2 h3 h4 h5
  have hb1 : (ss == "" || sp == "") = false := by simp [h1, h2]
  constructor
  · constructor
    · intro herr
      by_cases hc : (decide (es > 0) && body.length != es) = true
      · simpa using hc
      · exfalso
        by_cases hh : (eh != "" && H body != eh) = true
        · simp [main.upload_file_stream, hb1, h3, h4, h5, hc, hh] at herr
        · simp [main.upload_file_stream, hb1, h3, h4, h5, hc, hh,
            get_file_after_commit] at herr
    · intro ⟨hpos, hne⟩
      have hc : (decide (es > 0) && body.length != es) = true := by
        simp [hpos, bne_iff_ne, hne]
      simp [main.upload_file_stream, hb1, h3, h4, h5, hc]
  · intro hz he
    have hc : (decide (es > 0) && body.length != es) = false := by simp [hz]
    have hh : (eh != "" && H body != eh) = false := by simp [he]
    refine ⟨(storage.create_file
        { db with disk := if db.disk.contains (ss, safe) then db.disk
                          else (ss, safe) :: db.disk }
        safe ss sp body.length (H body)).1,
      (storage.get_file_by_hash db (H body)).isSome, ?_⟩
    simp [main.upload_file_stream, hb1, h3, h4, h5, hc, hh, get_file_after_commit,
      storage.get_file_by_hash]

/-- C10 witness: with a declared size of 2 and one received byte the handler
raises the size mismatch; with size 0 and no declared hash a two-byte body is
accepted. -/
theorem C10_size_check_skipped_witness :
    ((main.upload_file_stream exHash exDB1 "f.mov" 2 "abc" "tustin"
        "/exports/f.mov" [1]).2 = .error ApiErr.sizeMismatch) ∧
    (∃ rec warn,
      (main.upload_file_stream exHash exDB1 "f.mov" 0 "" "tustin"
        "/exports/f.mov" [1, 2]).2 = .ok (rec, warn)) :=
  ⟨(C10_size_check_skipped exHash exDB1 "f.mov" 2 "abc" "tustin"
      "/exports/f.mov" [1] "f.mov" (by decide) (by decide) (by decide)
      (by decide) (by decide)).1.mpr (by decide),
   (C10_size_check_skipped exHash exDB1 "f.mov" 0 "" "tustin"
      "/exports/f.mov" [1, 2] "f.mov" (by decide) (by decide) (by decide)
      (by decide) (by decide)).2 rfl rfl⟩

/-! Claim C1 — streamed upload round-trip. -/

/-- C1: for a streamed upload that passes the header, site, origin-conflict
and filename checks: if the received byte count equals the declared size and
the computed digest equals the declared hash, the handler commits a
FileRecord in state 'detected' carrying that digest (re-readable from the
store) together with a content-ledger entry for the digest; if a declared
(positive) size disagrees with the received count, or a declared (non-empty)
hash disagrees with the computed digest, the handler fails, creates no file
row, no ledger entry and no audit row, and the destination artifact is not
left on disk. -/
theorem C1_stream_roundtrip :
    ∀ (H : List Nat → String) (db : DB) (filename : String)
      (expected_size : Nat) (expected_hash source_site source_path : String)
      (body : List Nat) (safe : String),
      source_site ≠ "" → source_path ≠ "" →
      main.siteRegistered db source_site = true →
      storage.get_file_by_site_and_path db source_site source_path = none →
      main.sanitize filename = some safe →
      (expected_size = body.length → expected_hash = H body →
        ∃ rec warn,
          (main.upload_file_stream H db filename expected_size expected_hash
            source_site source_path body).2 = .ok (rec, warn) ∧
          rec.state = FState.detected ∧
          rec.sha256_hash = H body ∧
          storage.get_file
            (main.upload_file_stream H db filename expected_size expected_hash
              source_site source_path body).1 rec.id = some rec ∧
          (storage.check_file_history
            (main.upload_file_stream H db filename expected_size expected_hash
              source_site source_path body).1 (H body)).isSome = true) ∧
      (expected_size > 0 → expected_size ≠ body.length →
        (main.upload_file_stream H db filename expected_size expected_hash
          source_site source_path body).1.files = db.files ∧
        (main.upload_file_stream H db filename expected_size expected_hash
          source_site source_path body).1.history = db.history ∧
        (main.upload_file_stream H db filename expected_size expected_hash
          source_site source_path body).1.audit_logs = db.audit_logs ∧
        (source_site, safe) ∉ (main.upload_file_stream H db filename
          expected_size expected_hash source_site source_path body).1.disk ∧
        (main.upload_file_stream H db filename expected_size expected_hash
          source_site source_path body).2 = .error ApiErr.sizeMismatch) ∧
      (expected_hash ≠ "" → expected_hash ≠ H body →
        (main.upload_file_stream H db filename expected_size expected_hash
          source_site source_path body).1.files = db.files ∧
        (main.upload_file_stream H db filename expected_size expected_hash
          source_site source_path body).1.history = db.history ∧
        (main.upload_file_stream H db filename expected_size expected_hash
          source_site source_path body).1.audit_logs = db.audit_logs ∧
        (source_site, safe) ∉ (main.upload_file_stream H db filename
          expected_size expected_hash source_site source_path body).1.disk ∧
        ∃ er, (main.upload_file_stream H db filename expected_size
          expected_hash source_site source_path body).2 = .error er) := by
  intro H db filename es eh ss sp body safe h1 h2 h3 h4 h5
  have hb1 : (ss == "" || sp == "") = false := by simp [h1, h2]
  refine ⟨?_, ?_, ?_⟩
  · intro hsz hhs
    subst hsz
    subst hhs
    have hc : (decide (body.length > 0) && body.length != body.length) = false := by
      simp
    have hh : (H body != "" && H body != H body) = false := by simp
    refine ⟨(storage.create_file
        { db with disk := if db.disk.contains (ss, safe) then db.disk
                          else (ss, safe) :: db.disk }
        safe ss sp body.length (H body)).1,
      (storage.get_file_by_hash db (H body)).isSome, ?_, ?_, ?_, ?_, ?_⟩
    · simp [main.upload_file_stream, hb1, h3, h4, h5, hc, hh,
        get_file_after_commit, storage.get_file_by_hash]
    · simp [storage.create_file]
    · simp [storage.create_file]
    · simp [main.upload_file_stream, hb1, h3, h4, h5, hc, hh,
        get_file_after_commit, audit_get_file]
    · simp [main.upload_file_stream, hb1, h3, h4, h5, hc, hh,
        get_file_after_commit, audit_hist, hist_mem]
  · intro hpos hne
    have hc : (decide (es > 0) && body.length != es) = true := by
      simp [hpos, bne_iff_ne]
      omega
    refine ⟨?_, ?_, ?_, ?_, ?_⟩ <;>
      simp [main.upload_file_stream, hb1, h3, h4, h5, hc, List.mem_filter]
  · intro hne hhash
    by_cases hc : (decide (es > 0) && body.length != es) = true
    · refine ⟨?_, ?_, ?_, ?_, ApiErr.sizeMismatch, ?_⟩ <;>
        simp [main.upload_file_stream, hb1, h3, h4, h5, hc, List.mem_filter]
    · have hh : (eh != "" && H body != eh) = true := by
        simp [bne_iff_ne, hne]
        exact fun h => (hhash h.symm).elim
      refine ⟨?_, ?_, ?_, ?_, ApiErr.hashMismatch, ?_⟩ <;>
        simp [main.upload_file_stream, hb1, h3, h4, h5, hc, hh, List.mem_filter]

/-- C1 witness: a matching two-byte upload commits a detected FileRecord and
a ledger entry; declaring size 2 while sending one byte leaves the store
untouched with a size-mismatch; declaring hash "xyz" while the stream hashes
to "abc" leaves the store untouched with an error. -/
theorem C1_stream_roundtrip_witness :
    (∃ rec warn,
      (main.upload_file_stream exHash exDB1 "f.mov" 2 "abc" "tustin"
        "/exports/f.mov" [1, 2]).2 = .ok (rec, warn) ∧
      rec.state = FState.detected ∧
      rec.sha256_hash = exHash [1, 2] ∧
      storage.get_file
        (main.upload_file_stream exHash exDB1 "f.mov" 2 "abc" "tustin"
          "/exports/f.mov" [1, 2]).1 rec.id = some rec ∧
      (storage.check_file_history
        (main.upload_file_stream exHash exDB1 "f.mov" 2 "abc" "tustin"
          "/exports/f.mov" [1, 2]).1 (exHash [1, 2])).isSome = true) ∧
    ((main.upload_file_stream exHash exDB1 "f.mov" 2 "abc" "tustin"
        "/exports/f.mov" [1]).1.files = exDB1.files ∧
      (main.upload_file_stream exHash exDB1 "f.mov" 2 "abc" "tustin"
        "/exports/f.mov" [1]).1.history = exDB1.history ∧
      (main.upload_file_stream exHash exDB1 "f.mov" 2 "abc" "tustin"
        "/exports/f.mov" [1]).1.audit_logs = exDB1.audit_logs ∧
      ("tustin", "f.mov") ∉ (main.upload_file_stream exHash exDB1 "f.mov" 2
        "abc" "tustin" "/exports/f.mov" [1]).1.disk ∧
      (main.upload_file_stream exHash exDB1 "f.mov" 2 "abc" "tustin"
        "/exports/f.mov" [1]).2 = .error ApiErr.sizeMismatch) ∧
    ((main.upload_file_stream exHash exDB1 "f.mov" 1 "xyz" "tustin"
        "/exports/f.mov" [1]).1.files = exDB1.files ∧
      (main.upload_file_stream exHash exDB1 "f.mov" 1 "xyz" "tustin"
        "/exports/f.mov" [1]).1.history = exDB1.history ∧
      (main.upload_file_stream exHash exDB1 "f.mov" 1 "xyz" "tustin"
        "/exports/f.mov" [1]).1.audit_logs = exDB1.audit_logs ∧
      ("tustin", "f.mov") ∉ (main.upload_file_stream exHash exDB1 "f.mov" 1
        "xyz" "tustin" "/exports/f.mov" [1]).1.disk ∧
      ∃ er, (main.upload_file_stream exHash exDB1 "f.mov" 1 "xyz" "tustin"
        "/exports/f.mov" [1]).2 = .error er) :=
  ⟨(C1_stream_roundtrip exHash exDB1 "f.mov" 2 "abc" "tustin" "/exports/f.mov"
      [1, 2] "f.mov" (by decide) (by decide) (by decide) (by decide)
      (by decide)).1 (by decide) (by decide),
   (C1_stream_roundtrip exHash exDB1 "f.mov" 2 "abc" "tustin" "/exports/f.mov"
      [1] "f.mov" (by decide) (by decide) (by decide) (by decide)
      (by decide)).2.1 (by decide) (by decide),
   (C1_stream_roundtrip exHash exDB1 "f.mov" 1 "xyz" "tustin" "/exports/f.mov"
      [1] "f.mov" (by decide) (by decide) (by decide) (by decide)
      (by decide)).2.2 (by decide) (by decide)⟩

/-! Claim C9 — hash duplicates are accepted, with a warning flag. -/

/-- C9 counterexample: the content ledger already knows hash "abc" from a
different site and path, yet the accepted upload carries duplicate flag
false — the handler's duplicate warning consults only the files table, so a
ledger-only duplicate is not flagged in the response or log. -/
theorem C9_counterexample :
    storage.check_file_history exDB9 "abc"
      = some { sha256_hash := "abc", filename := "old.mov"
               source_site := "nashville", file_size := 2 } ∧
    (main.upload_file_stream exHash exDB9 "new.mov" 1 "abc" "tustin"
        "/exports/new.mov" [7]).2
      = .ok ({ id := 0, filename := "new.mov", source_site := "tustin"
               source_path := "/exports/new.mov", file_size := 1
               sha256_hash := "abc", state := FState.detected, locked := false
               assigned_to := none, transfer_progress := 0
               error_message := none }, false) :=
  ⟨rfl, rfl⟩

/-- C9 (amended): an upload passing the header, site, origin and filename
checks, whose declared size and hash (when supplied) match what was
received, is always accepted — a hash collision with prior content never
causes rejection — and the probable-duplicate flag in the result equals
whether some existing files-table row carries the same hash; a hash known
only to the content ledger is not flagged. -/
theorem C9_hash_duplicate_flag :
    ∀ (H : List Nat → String) (db : DB) (filename : String)
      (expected_size : Nat) (expected_hash source_site source_path : String)
      (body : List Nat) (safe : String),
      source_site ≠ "" → source_path ≠ "" →
      main.siteRegistered db source_site = true →
      storage.get_file_by_site_and_path db source_site source_path = none →
      main.sanitize filename = some safe →
      (expected_size > 0 → expected_size = body.length) →
      (expected_hash ≠ "" → expected_hash = H body) →
      ∃ rec,
        (main.upload_file_stream H db filename expected_size expected_hash
          source_site source_path body).2
          = .ok (rec, (storage.get_file_by_hash db (H body)).isSome) := by
  intro H db filename es eh ss sp body safe h1 h2 h3 h4 h5 hsz hhs
  have hb1 : (ss == "" || sp == "") = false := by simp [h1, h2]
  have hc : (decide (es > 0) && body.length != es) = false := by
    by_cases hp : es > 0
    · have hq := hsz hp
      simp [hq]
    · simp [hp]
  have hh : (eh != "" && H body != eh) = false := by
    by_cases hp : eh = ""
    · simp [hp]
    · have hq := hhs hp
      simp [hq]
  refine ⟨(storage.create_file
      { db with disk := if db.disk.contains (ss, safe) then db.disk
                        else (ss, safe) :: db.disk }
      safe ss sp body.length (H body)).1, ?_⟩
  simp [main.upload_file_stream, hb1, h3, h4, h5, hc, hh, get_file_after_commit,
    storage.get_file_by_hash]

/-- C9 witness: uploading fresh content whose hash matches an existing
files-table row from another origin is accepted with the duplicate flag
raised. -/
theorem C9_hash_duplicate_flag_witness :
    ∃ rec,
      (main.upload_file_stream exHash exDB9F "new.mov" 1 "abc" "tustin"
        "/exports/new.mov" [7]).2
        = .ok (rec, (storage.get_file_by_hash exDB9F (exHash [7])).isSome) :=
  C9_hash_duplicate_flag exHash exDB9F "new.mov" 1 "abc" "tustin"
    "/exports/new.mov" [7] "new.mov" (by decide) (by decide) (by decide)
    (by decide) (by decide) (by decide) (by decide)
